import Mathlib

/-!
Shallow embedding of the Discord webhook verification and dispatch logic of
`api/pkg/handlers/discord_handler.go` (functions `Event` and
`verifyInteraction`), together with theorems about its behaviour.

Conventions of the embedding:
* Go byte strings (`[]byte`, `string` viewed as raw bytes) are `List Nat`.
* The deep cryptographic part of Ed25519 signature verification is an
  abstract parameter `V : VerifyFn`; everything the handler itself does
  around it (hex decoding, length checks, message construction, and the
  length precondition of Go's `crypto/ed25519.Verify`) is modelled
  concretely.
* A Go runtime panic is modelled as `Option.none`; a normal return as
  `Option.some`.
-/

namespace Discord

/-- Go byte strings are lists of byte values. -/
abbrev Bytes := List Nat

/-- Value of a single hexadecimal digit character, following Go
`encoding/hex.fromHexChar`: digits, lowercase and uppercase letters. -/
def hexDigitValue (c : Nat) : Option Nat :=
  if 48 ≤ c ∧ c ≤ 57 then some (c - 48)
  else if 97 ≤ c ∧ c ≤ 102 then some (c - 97 + 10)
  else if 65 ≤ c ∧ c ≤ 70 then some (c - 65 + 10)
  else none

/-- Go `encoding/hex.DecodeString`: decodes pairs of hex digits; a string of
odd length or containing a non-hex character yields an error (`none`). -/
def hexDecode : Bytes → Option Bytes
  | [] => some []
  | [_] => none
  | a :: b :: rest =>
    match hexDigitValue a, hexDigitValue b, hexDecode rest with
    | some x, some y, some r => some ((16 * x + y) :: r)
    | _, _, _ => none

/-- The abstract Ed25519 signature-scheme predicate: given a 32-byte public
key, a message and a 64-byte signature, does the signature verify?  The
handler under study treats this as a black box (Go `crypto/ed25519`). -/
abbrev VerifyFn := Bytes → Bytes → Bytes → Bool

/-- `crypto/ed25519.SignatureSize` -/
def SignatureSize : Nat := 64

/-- `crypto/ed25519.PublicKeySize` -/
def PublicKeySize : Nat := 32

/-- Go `crypto/ed25519.Verify(publicKey, message, sig)`: panics (`none`)
when `len(publicKey) != PublicKeySize`; returns `false` when
`len(sig) != SignatureSize`; otherwise answers the abstract scheme `V`. -/
def ed25519Verify (V : VerifyFn) (publicKey message sig : Bytes) : Option Bool :=
  if publicKey.length ≠ PublicKeySize then none
  else if sig.length ≠ SignatureSize then some false
  else some (V publicKey message sig)

/-- The inputs of one inbound request that `verifyInteraction` and `Event`
read from the fiber context: the `X-Signature-Ed25519` header value, the
`X-Signature-Timestamp` header value (each `[]` when the header is absent,
as Go's `c.Get` returns `""`), and the raw request body. -/
structure Ctx where
  signatureHeader : Bytes
  timestampHeader : Bytes
  body : Bytes

/-- `msg.WriteString(timestamp); msg.Write(c.Body())`: the buffer holds the
raw timestamp header bytes followed by the raw body bytes. -/
def signedMessage (timestamp body : Bytes) : Bytes :=
  timestamp ++ body

/-- `DiscordHandler.verifyInteraction`, lines 315-351 of
`discord_handler.go`.  `envKey` is the value of the `DISCORD_PUBLIC_KEY`
environment variable (`[]` when unset, as Go's `os.Getenv` returns `""`);
`V` is the abstract Ed25519 scheme.  Returns `some b` for a normal boolean
return and `none` when the final `ed25519.Verify` call panics. -/
def verifyInteraction (V : VerifyFn) (envKey : Bytes) (c : Ctx) : Option Bool :=
  if c.signatureHeader = [] then some false
  else
    match hexDecode c.signatureHeader with
    | none => some false
    | some sig =>
      if sig.length ≠ SignatureSize then some false
      else if c.timestampHeader = [] then some false
      else
        match hexDecode envKey with
        | none => some false
        | some key =>
          ed25519Verify V key (signedMessage c.timestampHeader c.body) sig

/-- A Go `interface{}` value produced by `encoding/json.Unmarshal`: JSON
numbers become `float64` (modelled as exact rationals, since the handler
only compares them for equality), strings, booleans, null, arrays, and
objects as `map[string]interface{}` (modelled as association lists). -/
inductive GoValue where
  | null : GoValue
  | bool : Bool → GoValue
  | num : Rat → GoValue
  | str : String → GoValue
  | arr : List GoValue → GoValue
  | obj : List (String × GoValue) → GoValue

/-- The result of `json.Unmarshal(c.Body(), &payload)` for
`payload map[string]any`, abstracted as a function from the body bytes to
`none` (unmarshal error) or the decoded top-level map. -/
abbrev Unmarshal := Bytes → Option (List (String × GoValue))

/-- The body of `c.JSON(fiber.Map{"type": 1})`: the handshake acknowledge
response. -/
def ackBody : GoValue :=
  GoValue.obj [("type", GoValue.num 1)]

/-- The body the `type == 2` branch of `Event` passes to `c.JSON`: a fixed
structure with hard-coded content, phone numbers and colors (lines 268-306
of `discord_handler.go`). -/
def commandResultBody : GoValue :=
  GoValue.obj
    [("type", GoValue.num 4),
     ("data", GoValue.obj
       [("content", GoValue.str "*⚠ could not send SMS message*"),
        ("embeds", GoValue.arr
          [GoValue.obj
            [("title", GoValue.str "The to field is not a valid phone number"),
             ("color", GoValue.num 14681092)],
           GoValue.obj
            [("title", GoValue.str "The from field is not a valid phone number"),
             ("color", GoValue.num 14681092)],
           GoValue.obj
            [("fields", GoValue.arr
              [GoValue.obj
                [("name", GoValue.str "From:"),
                 ("value", GoValue.str "+37259139660"),
                 ("inline", GoValue.bool true)],
               GoValue.obj
                [("name", GoValue.str "To:"),
                 ("value", GoValue.str "+37259139661"),
                 ("inline", GoValue.bool true)],
               GoValue.obj
                [("name", GoValue.str "Content:"),
                 ("value", GoValue.str "Hello World")]])]])])]

/-- The outcome of one call to `DiscordHandler.Event` visible to the
caller.  `unauthorized` is `h.responseUnauthorized(c)`; modelled from the
spec: the generic unauthorized response takes no per-request data, so it
carries none here.  `badRequestParse` is `h.responseBadRequest(c, err)` on
an unmarshal error (the parse error is echoed); `badRequestUnknownType t`
is `h.responseBadRequest` on an unrecognized numeric type, carrying that
number; `jsonBody v` is `c.JSON(v)`. -/
inductive Response where
  | unauthorized : Response
  | badRequestParse : Response
  | badRequestUnknownType : Rat → Response
  | jsonBody : GoValue → Response

/-- `DiscordHandler.Event`, lines 246-310 of `discord_handler.go`.
`unmarshal` abstracts `json.Unmarshal` into `map[string]any`.  Returns
`none` when the handler panics: either inside `verifyInteraction`
(`ed25519.Verify` with a key of bad length) or at the unchecked type
assertion `payload["type"].(float64)` when the `type` entry is absent or
not a JSON number. -/
def Event (V : VerifyFn) (envKey : Bytes) (unmarshal : Unmarshal) (c : Ctx) :
    Option Response :=
  match verifyInteraction V envKey c with
  | none => none
  | some false => some Response.unauthorized
  | some true =>
    match unmarshal c.body with
    | none => some Response.badRequestParse
    | some payload =>
      match payload.lookup "type" with
      | some (GoValue.num t) =>
        if t = 1 then some (Response.jsonBody ackBody)
        else if t = 2 then some (Response.jsonBody commandResultBody)
        else some (Response.badRequestUnknownType t)
      | _ => none

/-! Concrete inputs used by witnesses and counterexamples. -/

/-- An abstract scheme that accepts every signature (the situation where the
presented signature is valid for the key and message). -/
def schemeTrue : VerifyFn := fun _ _ _ => true

/-- An abstract scheme that rejects every signature. -/
def schemeFalse : VerifyFn := fun _ _ _ => false

/-- A well-formed key environment value: 64 hex characters `0`. -/
def envKey0 : Bytes := List.replicate 64 48

/-- The 32 zero bytes `envKey0` decodes to. -/
def keyBytes0 : Bytes := List.replicate 32 0

/-- A well-formed signature header: 128 hex characters `0`. -/
def sigHeader0 : Bytes := List.replicate 128 48

/-- The 64 zero bytes `sigHeader0` decodes to. -/
def sigBytes0 : Bytes := List.replicate 64 0

/-- A request whose headers pass every syntactic check: well-formed
signature header, timestamp header `1`, empty body. -/
def ctx0 : Ctx := ⟨sigHeader0, [49], []⟩

/-- A request with the `X-Signature-Ed25519` header absent. -/
def ctxEmptySig : Ctx := ⟨[], [49], []⟩

/-- A request with the `X-Signature-Timestamp` header absent. -/
def ctxNoTs : Ctx := ⟨sigHeader0, [], []⟩

/-- A key environment value that is not valid hex (the single byte `g`). -/
def badHexKey : Bytes := [103]

/-- A key environment value of 2 hex characters, decoding to 1 byte. -/
def envKeyShort : Bytes := [48, 48]

/-- An unmarshal result: the body decodes to the empty JSON object, which
has no `type` entry. -/
def unmarshalEmptyObj : Unmarshal := fun _ => some []

/-- An unmarshal result: the body decodes to the object with `type` 99. -/
def unmarshal99 : Unmarshal := fun _ => some [("type", GoValue.num 99)]

/-- An unmarshal result: the body decodes to the object with `type` 1. -/
def unmarshalType1 : Unmarshal := fun _ => some [("type", GoValue.num 1)]

/-- An unmarshal result: the body decodes to the object with `type` 2. -/
def unmarshalType2 : Unmarshal := fun _ => some [("type", GoValue.num 2)]

/-- A request with an odd-length (hence undecodable) signature header and a
nonempty body. -/
def ctxOddSig : Ctx := ⟨[48], [49], [5]⟩

/-- A request with well-formed headers, a two-byte timestamp header and a
nonempty body. -/
def ctxBody : Ctx := ⟨sigHeader0, [49, 50], [104, 105]⟩

/-! Helper lemmas shared by the claim theorems. -/

/-- Decoding the empty hex string succeeds with the empty byte string. -/
theorem hexDecode_nil_eq : hexDecode [] = some [] := rfl

/-- A signature header that decodes to 64 bytes cannot be empty. -/
theorem signatureHeader_ne_nil {s b : Bytes} (h : hexDecode s = some b)
    (hl : b.length = 64) : s ≠ [] := by
  intro hnil
  subst hnil
  rw [hexDecode_nil_eq] at h
  injection h with h2
  rw [← h2] at hl
  simp at hl

/-- When every syntactic check passes and the key decodes to 32 bytes,
`verifyInteraction` returns exactly the abstract scheme's verdict on the
concatenated message. -/
theorem verifyInteraction_run (V : VerifyFn) (envKey : Bytes) (c : Ctx)
    (keyBytes sigBytes : Bytes)
    (hmk : hexDecode envKey = some keyBytes) (hk : keyBytes.length = 32)
    (hms : hexDecode c.signatureHeader = some sigBytes)
    (hs : sigBytes.length = 64) (hts : c.timestampHeader ≠ []) :
    verifyInteraction V envKey c
      = some (V keyBytes (signedMessage c.timestampHeader c.body) sigBytes) := by
  have hne : c.signatureHeader ≠ [] := signatureHeader_ne_nil hms hs
  unfold verifyInteraction
  rw [if_neg hne, hms, hmk]
  simp [ed25519Verify, SignatureSize, PublicKeySize, hk, hs, hts]

/-- Any of the four syntactic rejection reasons makes `verifyInteraction`
return `false`. -/
theorem verifyInteraction_syntactic_reject (V : VerifyFn) (envKey : Bytes)
    (c : Ctx)
    (h : c.signatureHeader = [] ∨ hexDecode c.signatureHeader = none ∨
      (∃ s, hexDecode c.signatureHeader = some s ∧ s.length ≠ 64) ∨
      c.timestampHeader = []) :
    verifyInteraction V envKey c = some false := by
  unfold verifyInteraction
  by_cases hnil : c.signatureHeader = []
  · simp [hnil]
  · rw [if_neg hnil]
    rcases h with h | h | ⟨s, hs, hl⟩ | h
    · exact absurd h hnil
    · rw [h]
    · rw [hs]
      simp [SignatureSize, hl]
    · cases h2 : hexDecode c.signatureHeader with
      | none => rfl
      | some s =>
        by_cases hl : s.length ≠ SignatureSize
        · simp [hl]
        · simp [hl, h]

/-- A rejected verification makes `Event` answer the generic unauthorized
response, whatever the unmarshaller. -/
theorem Event_of_reject (V : VerifyFn) (envKey : Bytes) (u : Unmarshal)
    (c : Ctx) (h : verifyInteraction V envKey c = some false) :
    Event V envKey u c = some Response.unauthorized := by
  unfold Event
  rw [h]

/-- An accepted verification makes `Event` proceed to the dispatch on the
decoded payload's `type` entry. -/
theorem Event_verified (V : VerifyFn) (envKey : Bytes) (u : Unmarshal)
    (c : Ctx) (payload : List (String × GoValue))
    (hv : verifyInteraction V envKey c = some true)
    (hp : u c.body = some payload) :
    Event V envKey u c
      = (match payload.lookup "type" with
        | some (GoValue.num t) =>
          if t = 1 then some (Response.jsonBody ackBody)
          else if t = 2 then some (Response.jsonBody commandResultBody)
          else some (Response.badRequestUnknownType t)
        | _ => none) := by
  unfold Event
  rw [hv, hp]

/-- The five internal reasons for which `verifyInteraction` rejects a
request: empty signature header, undecodable signature hex, decoded
signature of a length other than 64, empty timestamp header, or a
cryptographically invalid signature under a well-formed key. -/
def failureReason (V : VerifyFn) (envKey : Bytes) (c : Ctx) : Prop :=
  c.signatureHeader = [] ∨
  hexDecode c.signatureHeader = none ∨
  (∃ s, hexDecode c.signatureHeader = some s ∧ s.length ≠ 64) ∨
  c.timestampHeader = [] ∨
  (∃ s k, hexDecode c.signatureHeader = some s ∧ s.length = 64 ∧
    c.timestampHeader ≠ [] ∧ hexDecode envKey = some k ∧ k.length = 32 ∧
    V k (signedMessage c.timestampHeader c.body) s = false)

/-- Every failure reason yields the boolean `false` from
`verifyInteraction`. -/
theorem verify_false_of_failureReason {V : VerifyFn} {envKey : Bytes}
    {c : Ctx} (h : failureReason V envKey c) :
    verifyInteraction V envKey c = some false := by
  rcases h with h | h | h | h | ⟨s, k, hs, hl, hts, hk, hkl, hV⟩
  · exact verifyInteraction_syntactic_reject V envKey c (Or.inl h)
  · exact verifyInteraction_syntactic_reject V envKey c (Or.inr (Or.inl h))
  · exact verifyInteraction_syntactic_reject V envKey c
      (Or.inr (Or.inr (Or.inl h)))
  · exact verifyInteraction_syntactic_reject V envKey c
      (Or.inr (Or.inr (Or.inr h)))
  · rw [verifyInteraction_run V envKey c k s hk hkl hs hl hts, hV]

/-! The claim theorems. -/

/-- Claim C1: when the signature and timestamp headers are non-empty, the
signature hex-decodes to a 64-byte sequence and the configured key decodes
to a 32-byte public key, `verifyInteraction` returns exactly the Ed25519
scheme's verdict on that signature over the message `timestamp ++ body`;
in particular a valid signature yields `true`. -/
theorem C1_verify_agrees_with_scheme (V : VerifyFn) (envKey : Bytes)
    (c : Ctx) (keyBytes sigBytes : Bytes)
    (hmk : hexDecode envKey = some keyBytes) (hk : keyBytes.length = 32)
    (hms : hexDecode c.signatureHeader = some sigBytes)
    (hs : sigBytes.length = 64) (hts : c.timestampHeader ≠ []) :
    verifyInteraction V envKey c
      = some (V keyBytes (c.timestampHeader ++ c.body) sigBytes) ∧
    (V keyBytes (c.timestampHeader ++ c.body) sigBytes = true →
      verifyInteraction V envKey c = some true) := by
  have h := verifyInteraction_run V envKey c keyBytes sigBytes hmk hk hms hs hts
  unfold signedMessage at h
  exact ⟨h, fun hv => by rw [h, hv]⟩

/-- Witness for C1 at a concrete valid request under a scheme that accepts
the presented signature. -/
theorem C1_witness :
    verifyInteraction schemeTrue envKey0 ctx0
      = some (schemeTrue keyBytes0 (ctx0.timestampHeader ++ ctx0.body) sigBytes0)
      ∧ verifyInteraction schemeTrue envKey0 ctx0 = some true := by
  have h := C1_verify_agrees_with_scheme schemeTrue envKey0 ctx0 keyBytes0
    sigBytes0 (by decide) (by decide) (by decide) (by decide) (by decide)
  exact ⟨h.1, h.2 rfl⟩

/-- Claim C5: a rejected verification makes `Event` return the unauthorized
response immediately, and the outcome is the same for every unmarshaller —
the body is never parsed on the rejection path. -/
theorem C5_verification_short_circuits (V : VerifyFn) (envKey : Bytes)
    (u u' : Unmarshal) (c : Ctx)
    (h : verifyInteraction V envKey c = some false) :
    Event V envKey u c = some Response.unauthorized ∧
    Event V envKey u c = Event V envKey u' c := by
  have h1 := Event_of_reject V envKey u c h
  have h2 := Event_of_reject V envKey u' c h
  exact ⟨h1, h1.trans h2.symm⟩

/-- Witness for C5 at a request with a missing timestamp header and two
different unmarshallers. -/
theorem C5_witness :
    Event schemeTrue envKey0 unmarshalType1 ctxNoTs
      = some Response.unauthorized ∧
    Event schemeTrue envKey0 unmarshalType1 ctxNoTs
      = Event schemeTrue envKey0 unmarshalEmptyObj ctxNoTs :=
  C5_verification_short_circuits schemeTrue envKey0 unmarshalType1
    unmarshalEmptyObj ctxNoTs (by decide)

/-- Claim C6: under the checks of C1, the message handed to the signature
scheme is exactly the raw timestamp header bytes followed by the raw body
bytes, with no delimiter and no transformation: the timestamp is literally
the first `timestampHeader.length` bytes of the message and the body the
rest. -/
theorem C6_message_is_exact_concatenation (V : VerifyFn) (envKey : Bytes)
    (c : Ctx) (keyBytes sigBytes : Bytes)
    (hmk : hexDecode envKey = some keyBytes) (hk : keyBytes.length = 32)
    (hms : hexDecode c.signatureHeader = some sigBytes)
    (hs : sigBytes.length = 64) (hts : c.timestampHeader ≠ []) :
    verifyInteraction V envKey c
      = some (V keyBytes (signedMessage c.timestampHeader c.body) sigBytes) ∧
    signedMessage c.timestampHeader c.body = c.timestampHeader ++ c.body ∧
    (signedMessage c.timestampHeader c.body).take c.timestampHeader.length
      = c.timestampHeader ∧
    (signedMessage c.timestampHeader c.body).drop c.timestampHeader.length
      = c.body := by
  refine ⟨verifyInteraction_run V envKey c keyBytes sigBytes hmk hk hms hs hts,
    rfl, ?_, ?_⟩
  · unfold signedMessage
    exact List.take_left c.timestampHeader c.body
  · unfold signedMessage
    exact List.drop_left c.timestampHeader c.body

/-- Witness for C6 at a concrete request with a nonempty body. -/
theorem C6_witness :
    verifyInteraction schemeFalse envKey0 ctxBody
      = some (schemeFalse keyBytes0
          (signedMessage ctxBody.timestampHeader ctxBody.body) sigBytes0) ∧
    signedMessage ctxBody.timestampHeader ctxBody.body
      = ctxBody.timestampHeader ++ ctxBody.body ∧
    (signedMessage ctxBody.timestampHeader ctxBody.body).take
        ctxBody.timestampHeader.length = ctxBody.timestampHeader ∧
    (signedMessage ctxBody.timestampHeader ctxBody.body).drop
        ctxBody.timestampHeader.length = ctxBody.body :=
  C6_message_is_exact_concatenation schemeFalse envKey0 ctxBody keyBytes0
    sigBytes0 (by decide) (by decide) (by decide) (by decide) (by decide)

/-- Claim C7: an empty signature header, a signature header that is not
valid hex, a decoded signature of a length other than 64 bytes, or an empty
timestamp header each make `verifyInteraction` return `false` for every
abstract scheme (the cryptographic check is never consulted) and for every
body (the body content is irrelevant). -/
theorem C7_reject_before_crypto (envKey sigH tsH : Bytes)
    (h : sigH = [] ∨ hexDecode sigH = none ∨
      (∃ s, hexDecode sigH = some s ∧ s.length ≠ 64) ∨ tsH = []) :
    ∀ (V : VerifyFn) (body : Bytes),
      verifyInteraction V envKey ⟨sigH, tsH, body⟩ = some false := by
  intro V body
  exact verifyInteraction_syntactic_reject V envKey ⟨sigH, tsH, body⟩ h

/-- Witness for C7 at a request whose signature header has odd length,
hence fails hex decoding. -/
theorem C7_witness :
    verifyInteraction schemeTrue envKey0 ctxOddSig = some false :=
  C7_reject_before_crypto envKey0 [48] [49]
    (Or.inr (Or.inl (by decide))) schemeTrue [5]

/-- Claim C8: a verified request whose body unmarshals to a payload whose
`type` entry is the number 1 makes `Event` answer exactly the JSON body
with the single entry `type` mapped to 1. -/
theorem C8_handshake_acknowledge (V : VerifyFn) (envKey : Bytes)
    (u : Unmarshal) (c : Ctx) (payload : List (String × GoValue))
    (hv : verifyInteraction V envKey c = some true)
    (hp : u c.body = some payload)
    (ht : payload.lookup "type" = some (GoValue.num 1)) :
    Event V envKey u c = some (Response.jsonBody ackBody) ∧
    ackBody = GoValue.obj [("type", GoValue.num 1)] := by
  refine ⟨?_, rfl⟩
  rw [Event_verified V envKey u c payload hv hp, ht]
  simp

/-- Witness for C8 at a concrete verified handshake request. -/
theorem C8_witness :
    Event schemeTrue envKey0 unmarshalType1 ctx0
      = some (Response.jsonBody ackBody) ∧
    ackBody = GoValue.obj [("type", GoValue.num 1)] :=
  C8_handshake_acknowledge schemeTrue envKey0 unmarshalType1 ctx0
    [("type", GoValue.num 1)] (by decide) rfl rfl

/-- Claim C9: any two requests on which verification fails — for any of the
five internal reasons — give the same caller-visible outcome: the single
boolean `false` from `verifyInteraction` and the one generic unauthorized
response from `Event`, which carries no data about the reason. -/
theorem C9_failures_indistinguishable (V V' : VerifyFn) (k k' : Bytes)
    (u u' : Unmarshal) (c c' : Ctx)
    (h : failureReason V k c) (h' : failureReason V' k' c') :
    verifyInteraction V k c = some false ∧
    Event V k u c = some Response.unauthorized ∧
    Event V k u c = Event V' k' u' c' := by
  have hv := verify_false_of_failureReason h
  have hv' := verify_false_of_failureReason h'
  have h1 := Event_of_reject V k u c hv
  have h2 := Event_of_reject V' k' u' c' hv'
  exact ⟨hv, h1, h1.trans h2.symm⟩

/-- Witness for C9: a request missing its signature header and a request
whose signature is cryptographically invalid are answered identically. -/
theorem C9_witness :
    verifyInteraction schemeTrue envKey0 ctxEmptySig = some false ∧
    Event schemeTrue envKey0 unmarshalType2 ctxEmptySig
      = some Response.unauthorized ∧
    Event schemeTrue envKey0 unmarshalType2 ctxEmptySig
      = Event schemeFalse envKey0 unmarshalType1 ctx0 :=
  C9_failures_indistinguishable schemeTrue schemeFalse envKey0 envKey0
    unmarshalType2 unmarshalType1 ctxEmptySig ctx0 (Or.inl rfl)
    (Or.inr (Or.inr (Or.inr (Or.inr
      ⟨sigBytes0, keyBytes0, by decide, by decide, by decide, by decide,
        by decide, rfl⟩))))

/-- Claim C2, counterexample: a verified request whose body parses to an
object with no `type` entry does not get a bad-request response — the
unchecked `payload["type"].(float64)` type assertion panics (`none`), so
`Event` produces no response at all. -/
theorem C2_counterexample :
    Event schemeTrue envKey0 unmarshalEmptyObj ctx0 = none ∧
    verifyInteraction schemeTrue envKey0 ctx0 = some true ∧
    unmarshalEmptyObj ctx0.body = some [] :=
  ⟨rfl, by decide, rfl⟩

/-- Claim C2 as amended: on a verified, parseable request, a numeric `type`
outside {1, 2} gets the bad-request response carrying that number, but an
absent or non-numeric `type` makes the handler panic at the unchecked
float64 type assertion instead of returning a response. -/
theorem C2_amended_unknown_type (V : VerifyFn) (envKey : Bytes)
    (u : Unmarshal) (c : Ctx) (payload : List (String × GoValue))
    (hv : verifyInteraction V envKey c = some true)
    (hp : u c.body = some payload) :
    (∀ t : Rat, payload.lookup "type" = some (GoValue.num t) →
      t ≠ 1 → t ≠ 2 →
      Event V envKey u c = some (Response.badRequestUnknownType t)) ∧
    ((∀ t : Rat, payload.lookup "type" ≠ some (GoValue.num t)) →
      Event V envKey u c = none) := by
  have hE := Event_verified V envKey u c payload hv hp
  constructor
  · intro t ht h1 h2
    rw [hE, ht]
    simp [h1, h2]
  · intro hnone
    rw [hE]
    cases hl : payload.lookup "type" with
    | none => rfl
    | some v =>
      cases v with
      | num t => exact absurd hl (hnone t)
      | null => rfl
      | bool b => rfl
      | str s => rfl
      | arr a => rfl
      | obj o => rfl

/-- Witness for the amended C2 at a verified request with `type` 99. -/
theorem C2_amended_witness :
    Event schemeTrue envKey0 unmarshal99 ctx0
      = some (Response.badRequestUnknownType 99) :=
  (C2_amended_unknown_type schemeTrue envKey0 unmarshal99 ctx0
      [("type", GoValue.num 99)] (by decide) rfl).1 99 rfl
    (by norm_num) (by norm_num)

/-- Claim C3: on a verified request with `type` 2, `Event` answers the
fixed, hard-coded `commandResultBody` — independent of the abstract scheme,
the key, the unmarshaller's other output and every field of the request, so
no injected command handler is consulted and no request field reaches the
response. -/
theorem C3_hardcoded_command_response (V : VerifyFn) (envKey : Bytes)
    (u : Unmarshal) (c : Ctx) (payload : List (String × GoValue))
    (hv : verifyInteraction V envKey c = some true)
    (hp : u c.body = some payload)
    (ht : payload.lookup "type" = some (GoValue.num 2)) :
    Event V envKey u c = some (Response.jsonBody commandResultBody) := by
  rw [Event_verified V envKey u c payload hv hp, ht]
  norm_num

/-- Witness for C3 at a concrete verified command request. -/
theorem C3_witness :
    Event schemeTrue envKey0 unmarshalType2 ctx0
      = some (Response.jsonBody commandResultBody) :=
  C3_hardcoded_command_response schemeTrue envKey0 unmarshalType2 ctx0
    [("type", GoValue.num 2)] (by decide) rfl rfl

/-- Claim C4, counterexample: the configured key is consulted and decoded
inside the per-request verification path, not once at startup — with the
same request, an invalid-hex key yields the per-request boolean `false`
(the request is answered unauthorized, the service keeps serving) while a
well-formed key yields `true`. -/
theorem C4_counterexample :
    verifyInteraction schemeTrue badHexKey ctx0 = some false ∧
    verifyInteraction schemeTrue envKey0 ctx0 = some true :=
  ⟨by decide, by decide⟩

/-- Claim C4 as amended: the key is hex-decoded inside every call to
`verifyInteraction`; a key that is not valid hex makes every request's
verification return `false` — a per-request unauthorized outcome, not a
startup-time failure. -/
theorem C4_amended_key_decoded_per_request (V : VerifyFn) (envKey : Bytes)
    (c : Ctx) (h : hexDecode envKey = none) :
    verifyInteraction V envKey c = some false := by
  unfold verifyInteraction
  by_cases h1 : c.signatureHeader = []
  · simp [h1]
  · rw [if_neg h1]
    cases h2 : hexDecode c.signatureHeader with
    | none => rfl
    | some s =>
      by_cases h3 : s.length ≠ SignatureSize
      · simp [h3]
      · by_cases h4 : c.timestampHeader = []
        · simp [h3, h4]
        · simp [h3, h4, h]

/-- Witness for the amended C4 at a concrete invalid-hex key. -/
theorem C4_witness :
    verifyInteraction schemeFalse badHexKey ctxNoTs = some false :=
  C4_amended_key_decoded_per_request schemeFalse badHexKey ctxNoTs rfl

/-- Claim C10, counterexample: with the key unset (empty, decoding to 0
bytes) and a request passing every header check, `verifyInteraction` does
not return `false` — the `ed25519.Verify` call panics on the bad key
length, so no boolean is returned at all. -/
theorem C10_counterexample :
    verifyInteraction schemeTrue [] ctx0 = none ∧
    verifyInteraction schemeTrue [] ctx0 ≠ some false := by
  have h : verifyInteraction schemeTrue [] ctx0 = none := by decide
  refine ⟨h, ?_⟩
  rw [h]
  simp

/-- Claim C10 as amended: when the configured key is valid hex but decodes
to a length other than 32 bytes (including the empty sequence when the key
is unset) and the request's headers pass the syntactic checks,
`verifyInteraction` panics inside `ed25519.Verify` instead of returning a
boolean. -/
theorem C10_amended_bad_key_length_panics (V : VerifyFn) (envKey : Bytes)
    (c : Ctx) (keyBytes sigBytes : Bytes)
    (hmk : hexDecode envKey = some keyBytes) (hk : keyBytes.length ≠ 32)
    (hms : hexDecode c.signatureHeader = some sigBytes)
    (hs : sigBytes.length = 64) (hts : c.timestampHeader ≠ []) :
    verifyInteraction V envKey c = none := by
  have hne : c.signatureHeader ≠ [] := signatureHeader_ne_nil hms hs
  unfold verifyInteraction
  rw [if_neg hne, hms, hmk]
  simp [ed25519Verify, SignatureSize, PublicKeySize, hk, hs, hts]

/-- Witness for the amended C10 at a key decoding to a single byte. -/
theorem C10_witness :
    verifyInteraction schemeTrue envKeyShort ctx0 = none :=
  C10_amended_bad_key_length_panics schemeTrue envKeyShort ctx0 [0] sigBytes0
    (by decide) (by decide) (by decide) (by decide) (by decide)

end Discord
